import Mathlib

/-!
Verification of the filtering and aggregation pipeline of the used-bikes
dashboard (`src/app.py`).

The pipeline is embedded shallowly:

* a pandas DataFrame row becomes a `Listing`; a missing value (pandas `NaN`)
  in a column becomes `none`.  This is faithful to pandas semantics in the
  places the claims touch: `Series.isin` is false on `NaN` when the candidate
  list holds strings, every ordered comparison against `NaN` is false, and
  `min` / `max` / `mean` skip `NaN`.
* the boolean-mask filter of `app.py` lines 70-75 becomes six Bool-valued
  masks combined with `&&`, applied row-wise by `List.filter` (pandas boolean
  indexing keeps exactly the rows whose combined mask is true, in order).
* `len(filtered_df)` becomes `List.length`; `Series.mean()` becomes an
  `Option ℚ` that is `none` on the empty column (pandas yields `NaN` there,
  which the dashboard renders as a not-available placeholder rather than
  raising).
* the sidebar domains `sorted(df[c].dropna().unique())` (lines 57 and 60)
  become dedup-then-sort over the non-missing values; the slider bounds
  (lines 63 and 66) become `min?` / `max?` over the non-missing column
  (`int(...)` is the identity on the integer model).
-/

namespace UsedBikes

/-- One row of the dataset (`Listing` in the spec).  `brand` / `bikeType` are
the `Brand` / `Bike Type` columns; a pandas `NaN` is `none`.  `year` and
`price` are the `Year` / `Price` columns, integers in the source data, again
with `none` for a missing value.  Pass-through display columns play no part
in any computation and are omitted. -/
structure Listing where
  brand : Option String
  bikeType : Option String
  year : Option ℤ
  price : Option ℤ
  deriving DecidableEq, Repr

/-- The user's current filter parameters (`FilterSelection` in the spec):
the values of the two multiselects and the two range sliders of
`app.py` lines 58, 61, 64, 67. -/
structure FilterSelection where
  brands : List String
  types : List String
  yearLow : ℤ
  yearHigh : ℤ
  priceLow : ℤ
  priceHigh : ℤ
  deriving DecidableEq, Repr

/-- Mask of `df['Brand'].isin(selected_brand)` (line 71): membership of the
row's brand in the selected list; false when the brand is missing. -/
def brandMask (s : FilterSelection) (r : Listing) : Bool :=
  match r.brand with
  | some b => s.brands.contains b
  | none => false

/-- Mask of `df['Bike Type'].isin(selected_type)` (line 72). -/
def typeMask (s : FilterSelection) (r : Listing) : Bool :=
  match r.bikeType with
  | some t => s.types.contains t
  | none => false

/-- Mask of `df['Year'] >= year_range[0]` (line 73); false on a missing year. -/
def yearGeMask (s : FilterSelection) (r : Listing) : Bool :=
  match r.year with
  | some y => decide (s.yearLow ≤ y)
  | none => false

/-- Mask of `df['Year'] <= year_range[1]` (line 73). -/
def yearLeMask (s : FilterSelection) (r : Listing) : Bool :=
  match r.year with
  | some y => decide (y ≤ s.yearHigh)
  | none => false

/-- Mask of `df['Price'] >= price_range[0]` (line 74). -/
def priceGeMask (s : FilterSelection) (r : Listing) : Bool :=
  match r.price with
  | some p => decide (s.priceLow ≤ p)
  | none => false

/-- Mask of `df['Price'] <= price_range[1]` (line 74). -/
def priceLeMask (s : FilterSelection) (r : Listing) : Bool :=
  match r.price with
  | some p => decide (p ≤ s.priceHigh)
  | none => false

/-- The combined mask of lines 70-75: the `&` of the six comparison masks. -/
def rowMask (s : FilterSelection) (r : Listing) : Bool :=
  brandMask s r && typeMask s r && yearGeMask s r && yearLeMask s r &&
    priceGeMask s r && priceLeMask s r

/-- `filtered_df = df[mask]` (lines 70-75): boolean indexing keeps, in base
order, exactly the rows whose combined mask is true. -/
def filtered_df (df : List Listing) (s : FilterSelection) : List Listing :=
  df.filter (rowMask s)

/-- `len(filtered_df)` (line 88): the Total Listings KPI. -/
def countListings (df : List Listing) (s : FilterSelection) : ℕ :=
  (filtered_df df s).length

/-- The non-missing values of the `Year` column of a table
(pandas aggregations skip `NaN`). -/
def yearColumn (rows : List Listing) : List ℤ :=
  rows.filterMap Listing.year

/-- The non-missing values of the `Price` column of a table. -/
def priceColumn (rows : List Listing) : List ℤ :=
  rows.filterMap Listing.price

/-- `Series.mean()` over a list of integers: `NaN` (here `none`) when the
list is empty, otherwise the exact rational mean. -/
def meanOfInts (xs : List ℤ) : Option ℚ :=
  if xs.isEmpty then none
  else some ((xs.map fun x => (x : ℚ)).sum / xs.length)

/-- `filtered_df['Price'].mean()` (line 90): the Average Price KPI. -/
def meanPrice (df : List Listing) (s : FilterSelection) : Option ℚ :=
  meanOfInts (priceColumn (filtered_df df s))

/-- `filtered_df['Year'].mean()` (line 92): the Average Year KPI. -/
def meanYear (df : List Listing) (s : FilterSelection) : Option ℚ :=
  meanOfInts (yearColumn (filtered_df df s))

/-- `brands = sorted(df['Brand'].dropna().unique())` (line 57): the distinct
non-missing brands, in ascending (lexicographic) order.  `unique` followed by
`sorted` is dedup followed by an ascending sort; on a duplicate-free list
every correct sort yields the same list. -/
def brands (df : List Listing) : List String :=
  List.insertionSort (· ≤ ·) (df.filterMap Listing.brand).dedup

/-- `bike_types = sorted(df['Bike Type'].dropna().unique())` (line 60). -/
def bike_types (df : List Listing) : List String :=
  List.insertionSort (· ≤ ·) (df.filterMap Listing.bikeType).dedup

/-- `int(df['Year'].min())` (line 63): pandas `min` skips `NaN`, and `int` is
the identity on the integer model; `none` on an all-missing column. -/
def min_year (df : List Listing) : Option ℤ :=
  (yearColumn df).min?

/-- `int(df['Year'].max())` (line 63). -/
def max_year (df : List Listing) : Option ℤ :=
  (yearColumn df).max?

/-- `int(df['Price'].min())` (line 66). -/
def min_price (df : List Listing) : Option ℤ :=
  (priceColumn df).min?

/-- `int(df['Price'].max())` (line 66). -/
def max_price (df : List Listing) : Option ℤ :=
  (priceColumn df).max?

/-- Everything the engine derives from one (table, selection) pair: the
filtered subset and the three scalar KPIs of lines 88-92. -/
structure FilteredResult where
  rows : List Listing
  count : ℕ
  avgPrice : Option ℚ
  avgYear : Option ℚ
  deriving DecidableEq, Repr

/-- `apply(table, selection)` of the spec: one full pass of the filter and
aggregation pipeline (lines 70-92). -/
def applyPipeline (df : List Listing) (s : FilterSelection) : FilteredResult :=
  ⟨filtered_df df s, countListings df s, meanPrice df s, meanYear df s⟩

/-- The spec's per-row predicate, stated in the spec's own vocabulary:
brand is a member of the selected brand set, bike type a member of the
selected type set, year inclusively in the year range, price inclusively in
the price range.  A row missing one of the four values satisfies no
membership or comparison, hence fails the predicate. -/
def specPred (s : FilterSelection) (r : Listing) : Prop :=
  (∃ b, r.brand = some b ∧ b ∈ s.brands) ∧
  (∃ t, r.bikeType = some t ∧ t ∈ s.types) ∧
  (∃ y, r.year = some y ∧ s.yearLow ≤ y ∧ y ≤ s.yearHigh) ∧
  (∃ p, r.price = some p ∧ s.priceLow ≤ p ∧ p ≤ s.priceHigh)

theorem rowMask_iff (s : FilterSelection) (r : Listing) :
    rowMask s r = true ↔ specPred s r := by
  obtain ⟨b, t, y, p⟩ := r
  simp only [rowMask, brandMask, typeMask, yearGeMask, yearLeMask,
    priceGeMask, priceLeMask, specPred, Bool.and_eq_true]
  cases b <;> cases t <;> cases y <;> cases p <;> simp [and_assoc]

instance (s : FilterSelection) : DecidablePred (specPred s) := fun r =>
  decidable_of_iff (rowMask s r = true) (rowMask_iff s r)

/-- On a nonempty list of integers, `min?` returns an element that is a lower
bound: the true minimum. -/
theorem min?_spec (l : List ℤ) (h : l ≠ []) :
    ∃ m, l.min? = some m ∧ m ∈ l ∧ ∀ x ∈ l, m ≤ x := by
  obtain ⟨a, t, rfl⟩ := List.exists_cons_of_ne_nil h
  refine ⟨t.foldl min a, rfl, ?_⟩
  have hiff := @List.min?_eq_some_iff ℤ (t.foldl min a) _ _
    ⟨fun h h' => le_antisymm h h'⟩ (fun a => le_refl a)
    (fun a b => min_choice a b) (fun _ _ _ => le_min_iff) (a :: t)
  exact hiff.mp rfl

/-- On a nonempty list of integers, `max?` returns an element that is an upper
bound: the true maximum. -/
theorem max?_spec (l : List ℤ) (h : l ≠ []) :
    ∃ m, l.max? = some m ∧ m ∈ l ∧ ∀ x ∈ l, x ≤ m := by
  obtain ⟨a, t, rfl⟩ := List.exists_cons_of_ne_nil h
  refine ⟨t.foldl max a, rfl, ?_⟩
  have hiff := @List.max?_eq_some_iff ℤ (t.foldl max a) _ _
    ⟨fun h h' => le_antisymm h h'⟩ (fun a => le_refl a)
    (fun a b => max_choice a b) (fun _ _ _ => max_le_iff) (a :: t)
  exact hiff.mp rfl

/-- C1: for every base table and every selection, the filtered result holds
exactly the rows of the table satisfying the conjunction of the four
predicates (brand membership, type membership, inclusive year range,
inclusive price range), and the Total Listings KPI equals the number of rows
of the table satisfying that conjunction. -/
theorem filtered_df_exact (df : List Listing) (s : FilterSelection) :
    (∀ r : Listing, r ∈ filtered_df df s ↔ r ∈ df ∧ specPred s r) ∧
    countListings df s = List.countP (fun r => decide (specPred s r)) df := by
  constructor
  · intro r
    simp [filtered_df, List.mem_filter, rowMask_iff]
  · show (df.filter (rowMask s)).length = _
    rw [← List.countP_eq_length_filter]
    have hcong : df.filter (rowMask s) =
        df.filter (fun r => decide (specPred s r)) := by
      apply List.filter_congr
      intro r _
      by_cases h : specPred s r
      · rw [(rowMask_iff s r).mpr h, decide_eq_true h]
      · rw [decide_eq_false h, Bool.eq_false_iff]
        exact fun hc => h ((rowMask_iff s r).mp hc)
    rw [List.countP_eq_length_filter, hcong, ← List.countP_eq_length_filter]

/-- C7: for every base table and every selection, the filtered result is a
sublist of the base table: its rows appear in the same relative order as in
the base table (a stable filter, never a re-sort). -/
theorem filtered_df_stable (df : List Listing) (s : FilterSelection) :
    (filtered_df df s).Sublist df :=
  List.filter_sublist df

/-- C10: a row whose brand or bike-type value is missing never passes the
filter, whatever the selection is - `isin` is false on a missing value - so
such a row never appears in the filtered result. -/
theorem filtered_df_no_missing (df : List Listing) (s : FilterSelection)
    (r : Listing) (h : r ∈ filtered_df df s) :
    r.brand.isSome ∧ r.bikeType.isSome := by
  rw [filtered_df, List.mem_filter] at h
  obtain ⟨⟨b, hb, -⟩, ⟨t, ht, -⟩, -, -⟩ := (rowMask_iff s r).mp h.2
  rw [hb, ht]
  exact ⟨rfl, rfl⟩

/-- C4: an empty selected-brand set or an empty selected-type set yields an
empty filtered result: the Total Listings KPI is 0 and both mean KPIs are
not-available (pandas mean of an empty column is NaN, rendered as a
placeholder), with no division by zero and no exception. -/
theorem empty_selection_empty_result (df : List Listing) (s : FilterSelection)
    (h : s.brands = [] ∨ s.types = []) :
    filtered_df df s = [] ∧ countListings df s = 0 ∧
    meanPrice df s = none ∧ meanYear df s = none := by
  have hf : filtered_df df s = [] := by
    rw [filtered_df, List.filter_eq_nil_iff]
    intro r _ hmask
    obtain ⟨⟨b, -, hb⟩, ⟨t, -, ht⟩, -, -⟩ := (rowMask_iff s r).mp hmask
    rcases h with h0 | h0
    · rw [h0] at hb
      exact absurd hb (List.not_mem_nil b)
    · rw [h0] at ht
      exact absurd ht (List.not_mem_nil t)
  refine ⟨hf, ?_, ?_, ?_⟩ <;>
    simp [countListings, meanPrice, meanYear, hf, priceColumn, yearColumn,
      meanOfInts]

/-- C6: a selection whose year range or price range has low greater than
high matches no row: the engine returns an empty filtered result instead of
raising (the filter is a total boolean mask). -/
theorem inverted_range_no_match (df : List Listing) (s : FilterSelection)
    (h : s.yearHigh < s.yearLow ∨ s.priceHigh < s.priceLow) :
    filtered_df df s = [] ∧ countListings df s = 0 := by
  have hf : filtered_df df s = [] := by
    rw [filtered_df, List.filter_eq_nil_iff]
    intro r _ hmask
    obtain ⟨-, -, ⟨y, -, hy1, hy2⟩, ⟨p, -, hp1, hp2⟩⟩ :=
      (rowMask_iff s r).mp hmask
    rcases h with h0 | h0
    · exact absurd (le_trans hy1 hy2) (not_le.mpr h0)
    · exact absurd (le_trans hp1 hp2) (not_le.mpr h0)
  exact ⟨hf, by simp [countListings, hf]⟩

/-- First row of the spec's test scenario: a Honda, year 2012, price
150000.  The scenario leaves the bike type open; all three rows are given
the same type so that "types = all" is the singleton domain. -/
def hondaScooter2012 : Listing :=
  ⟨some ("Honda"), some ("Scooter"), some 2012, some 150000⟩

/-- Second scenario row: a Honda, year 2015, price 300000. -/
def hondaScooter2015 : Listing :=
  ⟨some ("Honda"), some ("Scooter"), some 2015, some 300000⟩

/-- Third scenario row: a Yamaha, year 2018, price 500000. -/
def yamahaScooter2018 : Listing :=
  ⟨some ("Yamaha"), some ("Scooter"), some 2018, some 500000⟩

/-- The spec's three-row scenario table. -/
def scenarioTable : List Listing :=
  [hondaScooter2012, hondaScooter2015, yamahaScooter2018]

/-- The scenario selection: brands = Honda only, types = the full type
domain, year range 2010-2023, price range 0-1000000. -/
def scenarioSelection : FilterSelection :=
  ⟨["Honda"], bike_types scenarioTable, 2010, 2023, 0, 1000000⟩

/-- A widening of the scenario selection in the brand dimension only:
both brands selected, everything else unchanged. -/
def scenarioSelectionAllBrands : FilterSelection :=
  ⟨["Honda", "Yamaha"], bike_types scenarioTable, 2010, 2023, 0, 1000000⟩

/-- C2: on the scenario table with the scenario selection, the pipeline
keeps exactly the two Honda rows, reports count 2, mean price exactly
225000 and mean year exactly 2013.5 (= 4027/2). -/
theorem scenario_result :
    filtered_df scenarioTable scenarioSelection =
      [hondaScooter2012, hondaScooter2015] ∧
    countListings scenarioTable scenarioSelection = 2 ∧
    meanPrice scenarioTable scenarioSelection = some ((225000 : ℚ)) ∧
    meanYear scenarioTable scenarioSelection = some ((4027 : ℚ) / 2) := by
  have hf : filtered_df scenarioTable scenarioSelection =
      [hondaScooter2012, hondaScooter2015] := by decide
  have hp : priceColumn [hondaScooter2012, hondaScooter2015] =
      [150000, 300000] := rfl
  have hy : yearColumn [hondaScooter2012, hondaScooter2015] =
      [2012, 2015] := rfl
  refine ⟨hf, by decide, ?_, ?_⟩
  · rw [meanPrice, hf, hp]
    norm_num [meanOfInts]
  · rw [meanYear, hf, hy]
    norm_num [meanOfInts]

/-- C9: the pipeline is a pure function of the base table and the
selection: equal inputs give an identical FilteredResult, across repeated
calls (no hidden state). -/
theorem applyPipeline_deterministic (df df' : List Listing)
    (s s' : FilterSelection) (hdf : df = df') (hs : s = s') :
    applyPipeline df s = applyPipeline df' s' := by
  rw [hdf, hs]

/-- Witness for C9 at the concrete scenario inputs. -/
theorem applyPipeline_deterministic_witness :
    applyPipeline scenarioTable scenarioSelection =
      applyPipeline scenarioTable scenarioSelection :=
  applyPipeline_deterministic scenarioTable scenarioTable
    scenarioSelection scenarioSelection rfl rfl

/-- Witness for C4: the scenario selection with the brand list cleared
yields the empty result and not-available means. -/
theorem empty_selection_empty_result_witness :
    filtered_df scenarioTable ⟨[], bike_types scenarioTable, 2010, 2023, 0, 1000000⟩ = [] ∧
    countListings scenarioTable ⟨[], bike_types scenarioTable, 2010, 2023, 0, 1000000⟩ = 0 ∧
    meanPrice scenarioTable ⟨[], bike_types scenarioTable, 2010, 2023, 0, 1000000⟩ = none ∧
    meanYear scenarioTable ⟨[], bike_types scenarioTable, 2010, 2023, 0, 1000000⟩ = none :=
  empty_selection_empty_result scenarioTable
    ⟨[], bike_types scenarioTable, 2010, 2023, 0, 1000000⟩ (Or.inl rfl)

/-- Witness for C6: an inverted year range on the scenario table matches
nothing. -/
theorem inverted_range_no_match_witness :
    filtered_df scenarioTable ⟨["Honda"], bike_types scenarioTable, 2023, 2010, 0, 1000000⟩ = [] ∧
    countListings scenarioTable ⟨["Honda"], bike_types scenarioTable, 2023, 2010, 0, 1000000⟩ = 0 :=
  inverted_range_no_match scenarioTable
    ⟨["Honda"], bike_types scenarioTable, 2023, 2010, 0, 1000000⟩
    (Or.inl (by decide))

/-- Witness for C10: the first Honda row is in the scenario's filtered
result, and indeed carries a present brand and type. -/
theorem filtered_df_no_missing_witness :
    hondaScooter2012.brand.isSome ∧ hondaScooter2012.bikeType.isSome :=
  filtered_df_no_missing scenarioTable scenarioSelection hondaScooter2012
    (by decide)

/-- A row passing a selection still passes any pointwise-wider selection. -/
theorem rowMask_mono {s s' : FilterSelection} (hb : s.brands ⊆ s'.brands)
    (ht : s.types ⊆ s'.types) (hyl : s'.yearLow ≤ s.yearLow)
    (hyh : s.yearHigh ≤ s'.yearHigh) (hpl : s'.priceLow ≤ s.priceLow)
    (hph : s.priceHigh ≤ s'.priceHigh) (r : Listing)
    (h : rowMask s r = true) : rowMask s' r = true := by
  rw [rowMask_iff] at h ⊢
  obtain ⟨⟨b, hb1, hb2⟩, ⟨t, ht1, ht2⟩, ⟨y, hy1, hy2, hy3⟩,
    ⟨p, hp1, hp2, hp3⟩⟩ := h
  exact ⟨⟨b, hb1, hb hb2⟩, ⟨t, ht1, ht ht2⟩,
    ⟨y, hy1, le_trans hyl hy2, le_trans hy3 hyh⟩,
    ⟨p, hp1, le_trans hpl hp2, le_trans hp3 hph⟩⟩

/-- The second selection widens exactly one of the four dimensions of the
first - a superset of the brand set, a superset of the type set, a
containing year range, or a containing price range - and leaves the other
three unchanged. -/
def WidensOneDimension (s s' : FilterSelection) : Prop :=
  (s.brands ⊆ s'.brands ∧ s'.types = s.types ∧ s'.yearLow = s.yearLow ∧
    s'.yearHigh = s.yearHigh ∧ s'.priceLow = s.priceLow ∧
    s'.priceHigh = s.priceHigh) ∨
  (s'.brands = s.brands ∧ s.types ⊆ s'.types ∧ s'.yearLow = s.yearLow ∧
    s'.yearHigh = s.yearHigh ∧ s'.priceLow = s.priceLow ∧
    s'.priceHigh = s.priceHigh) ∨
  (s'.brands = s.brands ∧ s'.types = s.types ∧ s'.yearLow ≤ s.yearLow ∧
    s.yearHigh ≤ s'.yearHigh ∧ s'.priceLow = s.priceLow ∧
    s'.priceHigh = s.priceHigh) ∨
  (s'.brands = s.brands ∧ s'.types = s.types ∧ s'.yearLow = s.yearLow ∧
    s'.yearHigh = s.yearHigh ∧ s'.priceLow ≤ s.priceLow ∧
    s.priceHigh ≤ s'.priceHigh)

/-- C3: widening exactly one filter dimension never decreases the Total
Listings count. -/
theorem widen_count_mono (df : List Listing) (s s' : FilterSelection)
    (h : WidensOneDimension s s') :
    countListings df s ≤ countListings df s' := by
  have mono : ∀ r ∈ df, rowMask s r = true → rowMask s' r = true := by
    intro r _
    rcases h with ⟨h1, h2, h3, h4, h5, h6⟩ | ⟨h1, h2, h3, h4, h5, h6⟩ |
      ⟨h1, h2, h3, h4, h5, h6⟩ | ⟨h1, h2, h3, h4, h5, h6⟩
    · exact rowMask_mono h1 (fun x hx => h2 ▸ hx) (le_of_eq h3)
        (le_of_eq h4.symm) (le_of_eq h5) (le_of_eq h6.symm) r
    · exact rowMask_mono (fun x hx => h1 ▸ hx) h2 (le_of_eq h3)
        (le_of_eq h4.symm) (le_of_eq h5) (le_of_eq h6.symm) r
    · exact rowMask_mono (fun x hx => h1 ▸ hx) (fun x hx => h2 ▸ hx) h3 h4
        (le_of_eq h5) (le_of_eq h6.symm) r
    · exact rowMask_mono (fun x hx => h1 ▸ hx) (fun x hx => h2 ▸ hx)
        (le_of_eq h3) (le_of_eq h4.symm) h5 h6 r
  show (df.filter (rowMask s)).length ≤ (df.filter (rowMask s')).length
  rw [← List.countP_eq_length_filter, ← List.countP_eq_length_filter]
  exact List.countP_mono_left mono

/-- Witness for C3: adding Yamaha to the scenario's brand selection widens
the brand dimension only, and the count indeed does not decrease. -/
theorem widen_count_mono_witness :
    countListings scenarioTable scenarioSelection ≤
      countListings scenarioTable scenarioSelectionAllBrands :=
  widen_count_mono scenarioTable scenarioSelection scenarioSelectionAllBrands
    (Or.inl (by decide))

/-- C5: whenever the year and price columns are nonempty after dropping
missing values, the slider bounds of lines 63 and 66 are exactly the true
minimum and the true maximum of the non-missing values of the columns. -/
theorem slider_bounds_exact (df : List Listing)
    (hy : yearColumn df ≠ []) (hp : priceColumn df ≠ []) :
    (∃ m, min_year df = some m ∧ m ∈ yearColumn df ∧
      ∀ y ∈ yearColumn df, m ≤ y) ∧
    (∃ m, max_year df = some m ∧ m ∈ yearColumn df ∧
      ∀ y ∈ yearColumn df, y ≤ m) ∧
    (∃ m, min_price df = some m ∧ m ∈ priceColumn df ∧
      ∀ p ∈ priceColumn df, m ≤ p) ∧
    (∃ m, max_price df = some m ∧ m ∈ priceColumn df ∧
      ∀ p ∈ priceColumn df, p ≤ m) :=
  ⟨min?_spec (yearColumn df) hy, max?_spec (yearColumn df) hy,
    min?_spec (priceColumn df) hp, max?_spec (priceColumn df) hp⟩

/-- Witness for C5 at the scenario table, whose year and price columns are
nonempty. -/
theorem slider_bounds_exact_witness :
    (∃ m, min_year scenarioTable = some m ∧ m ∈ yearColumn scenarioTable ∧
      ∀ y ∈ yearColumn scenarioTable, m ≤ y) ∧
    (∃ m, max_year scenarioTable = some m ∧ m ∈ yearColumn scenarioTable ∧
      ∀ y ∈ yearColumn scenarioTable, y ≤ m) ∧
    (∃ m, min_price scenarioTable = some m ∧ m ∈ priceColumn scenarioTable ∧
      ∀ p ∈ priceColumn scenarioTable, m ≤ p) ∧
    (∃ m, max_price scenarioTable = some m ∧ m ∈ priceColumn scenarioTable ∧
      ∀ p ∈ priceColumn scenarioTable, p ≤ m) :=
  slider_bounds_exact scenarioTable (by decide) (by decide)

/-- C8: the brand and bike-type domains offered by the sidebar are
duplicate-free, sorted ascending in the lexicographic string order, and
hold exactly the values present in some row - a missing value never enters
a domain. -/
theorem domains_sorted_dedup (df : List Listing) :
    (brands df).Sorted (· ≤ ·) ∧ (brands df).Nodup ∧
    (∀ b, b ∈ brands df ↔ ∃ r ∈ df, r.brand = some b) ∧
    (bike_types df).Sorted (· ≤ ·) ∧ (bike_types df).Nodup ∧
    (∀ t, t ∈ bike_types df ↔ ∃ r ∈ df, r.bikeType = some t) := by
  refine ⟨List.sorted_insertionSort _ _, ?_, ?_,
    List.sorted_insertionSort _ _, ?_, ?_⟩
  · exact ((List.perm_insertionSort _ _).nodup_iff).mpr (List.nodup_dedup _)
  · intro b
    rw [brands, (List.perm_insertionSort _ _).mem_iff, List.mem_dedup,
      List.mem_filterMap]
  · exact ((List.perm_insertionSort _ _).nodup_iff).mpr (List.nodup_dedup _)
  · intro t
    rw [bike_types, (List.perm_insertionSort _ _).mem_iff, List.mem_dedup,
      List.mem_filterMap]
